import Mathlib

/-!
Verification of the glucose simulation engine of `cgmsim-mobile`
(`SimulationService` and the effect models it uses).

The TypeScript source is embedded shallowly:
* JS `number` is idealised as `ℝ` (the engine's arithmetic is ordinary
  field arithmetic plus `Math.exp` / `Math.sin`, modelled by `Real.exp` /
  `Real.sin`);
* `Date` values are their millisecond epoch value (`getTime()`), so
  timestamps are real numbers and elapsed minutes are `(t₂ - t₁0) / 60000`;
* optional TS fields are `Option ℝ`, and the JS `x || 0` default is
  `Option.getD · 0` (for a present `0` both give `0`);
* the external, unseeded `perlin-noise` npm library has no source in the
  repository; it is abstracted by an ambient stream `draw : ℕ → ℝ` of the
  pseudo-random values it consumes (see `generatePerlinNoise`).

Definitions keep the source's names.  All definitions are over `ℝ`, hence
live in a `noncomputable section`; concrete instances are evaluated in the
theorems by `simp` / `norm_num`.
-/

noncomputable section

open Classical

/-- The treatment type tags of `DatabaseService.Treatment` and
`CGMSimTreatment` (`'meal' | 'rapid_insulin' | 'long_insulin' | 'exercise'
| 'correction'`). -/
inductive TreatmentType
  | meal
  | rapid_insulin
  | long_insulin
  | exercise
  | correction
deriving DecidableEq

/-- `'light' | 'moderate' | 'intense'`. -/
inductive ExerciseType
  | light
  | moderate
  | intense
deriving DecidableEq

/-- The insulin kind argument `'rapid' | 'long'` of `calculateInsulinEffect`. -/
inductive InsulinKind
  | rapid
  | long
deriving DecidableEq

/-- `CGMSimPatient` (SimulationService.ts lines 10–17). -/
structure CGMSimPatient where
  age : ℝ
  weight : ℝ
  height : ℝ
  insulinSensitivityFactor : ℝ
  carbRatio : ℝ
  basalRate : ℝ

/-- `CGMSimTreatment` (lines 19–26).  The optional numeric fields are the
values after the façade's `|| 0` conversion (lines 257–264), so they are
plain reals here; JS truthiness of a numeric field is `≠ 0`. -/
structure CGMSimTreatment where
  timestamp : ℝ
  type : TreatmentType
  carbohydrates : ℝ
  insulin : ℝ
  exerciseType : Option ExerciseType
  exerciseDuration : ℝ

/-- `GlucoseReading` (lines 28–35).  The `id` string
`patientId + "_" + timestamp.toISOString()` is display-only metadata whose
ISO-date formatting is not modelled; the remaining fields are kept. -/
structure GlucoseReading where
  patientId : String
  timestamp : ℝ
  glucoseValue : ℝ
  isPredicted : Bool
  calculationTimestamp : ℝ

/-- `CGMSimOptions` (lines 37–44).  `durationHours` and `intervalMinutes`
are naturals (the façade passes the literals 24 and 5); the JS loop bound
`(durationHours * 60) / intervalMinutes` is then the natural division. -/
structure CGMSimOptions where
  patient : CGMSimPatient
  treatments : List CGMSimTreatment
  startTime : ℝ
  durationHours : ℕ
  intervalMinutes : ℕ
  baselineGlucose : ℝ

/-- `PatientProfile` of DatabaseService (fields used by the engine). -/
structure PatientProfile where
  id : String
  name : String
  age : ℝ
  weight : ℝ
  height : ℝ
  insulinSensitivityFactor : ℝ
  carbRatio : ℝ
  basalRate : ℝ
  targetGlucoseLow : ℝ
  targetGlucoseHigh : ℝ
  isPumpUser : Bool

/-- `Treatment` of DatabaseService: tagged event with optional per-type
payload fields. -/
structure Treatment where
  id : String
  patientId : String
  timestamp : ℝ
  type : TreatmentType
  carbohydrates : Option ℝ
  rapidInsulin : Option ℝ
  longInsulin : Option ℝ
  exerciseType : Option ExerciseType
  exerciseDuration : Option ℝ

/-- `calculateCarbEffect` (lines 131–149): bilinear absorption over a
0–240 minute window peaking at 60 minutes. -/
def calculateCarbEffect (carbs timeSinceEating : ℝ) (patient : CGMSimPatient) : ℝ :=
  if timeSinceEating > 240 then 0
  else
    let absorptionRate : ℝ :=
      if timeSinceEating ≤ 60 then timeSinceEating / 60
      else (240 - timeSinceEating) / (240 - 60)
    let maxEffect := carbs / patient.carbRatio * patient.insulinSensitivityFactor
    maxEffect * absorptionRate * 0.05

/-- `calculateInsulinEffect` (lines 152–171): rapid insulin is
`exp (-0.0173 t) * (1 - exp (-0.0173 t))` with `t` the elapsed time in
hours, cut off after 300 minutes; long insulin is a flat release over
1440 minutes. -/
def calculateInsulinEffect (insulin timeSinceInjection : ℝ) (patient : CGMSimPatient)
    (type : InsulinKind) : ℝ :=
  match type with
  | .rapid =>
    if timeSinceInjection > 300 then 0
    else
      let t := timeSinceInjection / 60
      let activity := Real.exp (-0.0173 * t) * (1 - Real.exp (-0.0173 * t))
      let maxEffect := insulin * patient.insulinSensitivityFactor
      maxEffect * activity * 0.05
  | .long =>
    if timeSinceInjection > 1440 then 0
    else insulin * patient.insulinSensitivityFactor / (1440 / 5)

/-- The intensity switch inside `calculateExerciseEffect` (lines 177–190);
the TS `default` branch returns the same `1.0` as `'moderate'`. -/
def intensityOf : ExerciseType → ℝ
  | .light => 0.5
  | .moderate => 1.0
  | .intense => 2.0

/-- `calculateExerciseEffect` (lines 173–201): fixed `intensity * 0.5`
during the activity, then `intensity * 0.2 * exp (-(timeAfter / 120))`,
cut off 180 minutes after the activity ends. -/
def calculateExerciseEffect (exerciseType : ExerciseType) (duration timeSinceStart : ℝ) : ℝ :=
  if timeSinceStart > duration + 180 then 0
  else if timeSinceStart ≤ duration then intensityOf exerciseType * 0.5
  else intensityOf exerciseType * 0.2 * Real.exp (-((timeSinceStart - duration) / 120))

/-- The glucose delta one treatment adds at one grid point: the body of the
`treatments.forEach` of `simulateGlucoseProfile` (lines 69–119), including
the `timeSinceTreatment >= 0` guard, the per-type truthiness guards and
effect windows, and the sign (insulin and exercise subtract). -/
def treatmentChange (patient : CGMSimPatient) (currentTime : ℝ)
    (treatment : CGMSimTreatment) : ℝ :=
  let timeSinceTreatment := (currentTime - treatment.timestamp) / (1000 * 60)
  if 0 ≤ timeSinceTreatment then
    match treatment.type with
    | .meal =>
      if treatment.carbohydrates ≠ 0 ∧ timeSinceTreatment ≤ 240 then
        calculateCarbEffect treatment.carbohydrates timeSinceTreatment patient
      else 0
    | .rapid_insulin | .correction =>
      if treatment.insulin ≠ 0 ∧ timeSinceTreatment ≤ 300 then
        -(calculateInsulinEffect treatment.insulin timeSinceTreatment patient .rapid)
      else 0
    | .long_insulin =>
      if treatment.insulin ≠ 0 ∧ timeSinceTreatment ≤ 1440 then
        -(calculateInsulinEffect treatment.insulin timeSinceTreatment patient .long)
      else 0
    | .exercise =>
      if treatment.exerciseDuration ≠ 0 ∧
          timeSinceTreatment ≤ treatment.exerciseDuration + 180 then
        -(calculateExerciseEffect (treatment.exerciseType.getD .moderate)
            treatment.exerciseDuration timeSinceTreatment)
      else 0
  else 0

/-- The total `glucoseChange` accumulated at one grid point (lines 63–119):
the endogenous `2.0 / 12` drift plus every treatment's contribution. -/
def glucoseChangeAt (patient : CGMSimPatient) (treatments : List CGMSimTreatment)
    (currentTime : ℝ) : ℝ :=
  2 / 12 + (treatments.map (treatmentChange patient currentTime)).sum

/-- One point of the inner simulation result (`{ timestamp, glucoseValue }`). -/
structure SimPoint where
  timestamp : ℝ
  glucoseValue : ℝ

/-- The main loop of `simulateGlucoseProfile` (lines 58–128): thread
`currentGlucose` through the grid, clamping each new level to `[40, 400]`
before emitting it. -/
def simRun (patient : CGMSimPatient) (treatments : List CGMSimTreatment) :
    ℝ → List ℝ → List SimPoint
  | _, [] => []
  | currentGlucose, time :: rest =>
    let g := max 40 (min 400 (currentGlucose + glucoseChangeAt patient treatments time))
    ⟨time, g⟩ :: simRun patient treatments g rest

/-- The grid of `simulateGlucoseProfile` (lines 52–56): the JS loop
`for (i = 0; i <= (durationHours * 60) / intervalMinutes; i++)` has an
inclusive bound, so it emits `(durationHours * 60) / intervalMinutes + 1`
instants spaced `intervalMinutes` apart from `startTime`. -/
def intervalTimes (options : CGMSimOptions) : List ℝ :=
  (List.range (options.durationHours * 60 / options.intervalMinutes + 1)).map
    fun (i : ℕ) => options.startTime + (i : ℝ) * (options.intervalMinutes : ℝ) * 60 * 1000

/-- `simulateGlucoseProfile` (lines 48–129). -/
def simulateGlucoseProfile (options : CGMSimOptions) : List SimPoint :=
  simRun options.patient options.treatments options.baselineGlucose (intervalTimes options)

/-- Modelled from the spec: the external `perlin-noise` npm library (the
repository only `require`s it; its source is not part of the repository).
Per spec §9 it is a "pseudo-random library dependency" to be replaced by a
*seeded* PRNG, i.e. the library consumes ambient, unseeded randomness; the
call site passes no seed.  Its output is abstracted as the next `size`
values of the ambient pseudo-random stream `draw`; the amplitude/octave/
persistence options shape the values' distribution but play no role in the
determinism questions studied here, so they are carried but unused. -/
def generatePerlinNoise (draw : ℕ → ℝ) (size : ℕ)
    (amplitude octaveCount persistence : ℝ) : List ℝ :=
  let _shape := (amplitude, octaveCount, persistence)
  (List.range size).map draw

/-- `generateWeeklyNoise` (lines 206–241).  Note the source never uses
`patientId` or `weekStart` in the computation: the parsed
`new Date(weekStart).getTime()` is dead, and the perlin call is unseeded.
The per-entry `isNaN` guard has no counterpart over `ℝ` (no NaN). -/
def generateWeeklyNoise (draw : ℕ → ℝ) (patientId : String) (weekStart : String)
    (amplitude octaves persistence : ℝ) : List ℝ :=
  let _unusedKey := (patientId, weekStart)
  let noise : List ℝ :=
    if amplitude = 0 ∨ octaves = 0 ∨ persistence = 0 then List.replicate 2016 0
    else generatePerlinNoise draw 2016 amplitude octaves persistence
  noise.map fun v =>
    if amplitude = 0 ∨ octaves = 0 ∨ persistence = 0 then 0 else v / 10 - 0.05

/-- The treatment conversion of `calculateGlucoseCurve` (lines 257–264):
`insulin := (rapidInsulin || 0) + (longInsulin || 0)` and `|| 0` defaults
for the other numeric payloads. -/
def toCGMSimTreatment (t : Treatment) : CGMSimTreatment :=
  { timestamp := t.timestamp
    type := t.type
    carbohydrates := t.carbohydrates.getD 0
    insulin := t.rapidInsulin.getD 0 + t.longInsulin.getD 0
    exerciseType := t.exerciseType
    exerciseDuration := t.exerciseDuration.getD 0 }

/-- The patient conversion of `calculateGlucoseCurve` (lines 268–275). -/
def toCGMSimPatient (p : PatientProfile) : CGMSimPatient :=
  { age := p.age
    weight := p.weight
    height := p.height
    insulinSensitivityFactor := p.insulinSensitivityFactor
    carbRatio := p.carbRatio
    basalRate := p.basalRate }

/-- The noise-application map of `calculateGlucoseCurve` (lines 284–298):
`simulationResult.map((point, index) => ...)` with
`noiseIndex = index % noiseArray.length`, additive-relative noise
`g + g * noise`, and a `[40, 400]` clamp.  Written with an explicit index
accumulator to mirror the JS `(point, index)` callback. -/
def applyNoise (patientId : String) (calculationTime : ℝ) (noiseArray : List ℝ) :
    ℕ → List SimPoint → List GlucoseReading
  | _, [] => []
  | index, point :: rest =>
    let noiseValue := noiseArray.getD (index % noiseArray.length) 0
    let noisyGlucose := point.glucoseValue + point.glucoseValue * noiseValue
    { patientId := patientId
      timestamp := point.timestamp
      glucoseValue := max 40 (min 400 noisyGlucose)
      isPredicted := true
      calculationTimestamp := calculationTime } :: applyNoise patientId calculationTime noiseArray (index + 1) rest

/-- The try-block of `calculateGlucoseCurve` (lines 249–346): weekly noise
at the default parameters `(0.3, 1, 0.3)`, the 24 h / 5 min simulation from
baseline 120 starting at `now`, then noise application.  The `weekStart`
string computed by `getWeekStart` is passed as `""`: `generateWeeklyNoise`
provably ignores it (see `generateWeeklyNoise`), so its date formatting is
not modelled. -/
def calculateGlucoseCurve (draw : ℕ → ℝ) (now : ℝ) (patient : PatientProfile)
    (treatments : List Treatment) : List GlucoseReading :=
  let noiseArray := generateWeeklyNoise draw patient.id "" 0.3 1 0.3
  let simulationResult := simulateGlucoseProfile
    { patient := toCGMSimPatient patient
      treatments := treatments.map toCGMSimTreatment
      startTime := now
      durationHours := 24
      intervalMinutes := 5
      baselineGlucose := 120 }
  applyNoise patient.id now noiseArray 0 simulationResult

/-- `generateFallbackGlucoseCurve` (lines 356–387): 288 points of a 24-hour
sinusoid around 120 (amplitude 30) with the same weekly noise, clamped to
`[70, 200]`. -/
def generateFallbackGlucoseCurve (draw : ℕ → ℝ) (now : ℝ)
    (patient : PatientProfile) : List GlucoseReading :=
  let noiseArray := generateWeeklyNoise draw patient.id "" 0.3 1 0.3
  (List.range 288).map fun (i : ℕ) =>
    let timestamp := now + (i : ℝ) * 5 * 60 * 1000
    let hours := (i : ℝ) * (5 / 60)
    let baseGlucose := 120 + 30 * Real.sin (hours * 2 * Real.pi / 24)
    let noiseValue := noiseArray.getD (i % noiseArray.length) 0
    let noisyGlucose := baseGlucose + baseGlucose * noiseValue
    { patientId := patient.id
      timestamp := timestamp
      glucoseValue := max 70 (min 200 noisyGlucose)
      isPredicted := true
      calculationTimestamp := now }

/-- The try/catch of `calculateGlucoseCurve` (lines 249–354): `raised`
says whether the try-block threw a runtime exception (exceptions are not
representable inside the pure embedding, so the outcome is a parameter);
the catch branch returns the fallback curve. -/
def calculateGlucoseCurveCaught (draw : ℕ → ℝ) (now : ℝ) (patient : PatientProfile)
    (treatments : List Treatment) (raised : Bool) : List GlucoseReading :=
  if raised then generateFallbackGlucoseCurve draw now patient
  else calculateGlucoseCurve draw now patient treatments

/-- The `glucoseReadings.find(...)` of `getCurrentGlucoseValue`
(lines 392–395): first reading strictly within 5 minutes of `now`. -/
def findNearbyReading (now : ℝ) : List GlucoseReading → Option GlucoseReading
  | [] => none
  | reading :: rest =>
    if |reading.timestamp - now| < 5 * 60 * 1000 then some reading
    else findNearbyReading now rest

/-- `getCurrentGlucoseValue` (lines 390–398): the JS
`currentReading?.glucoseValue || 120` yields 120 both when no reading is
found and when the found reading's (falsy) value is `0`. -/
def getCurrentGlucoseValue (now : ℝ) (glucoseReadings : List GlucoseReading) : ℝ :=
  match findNearbyReading now glucoseReadings with
  | some reading => if reading.glucoseValue = 0 then 120 else reading.glucoseValue
  | none => 120

/-- The repository's `DEFAULT_PATIENT` (DatabaseService), used as the
concrete profile in witnesses and counterexamples. -/
def defaultPatient : PatientProfile :=
  { id := "default-patient-001"
    name := "Test Patient"
    age := 35
    weight := 70
    height := 170
    insulinSensitivityFactor := 50
    carbRatio := 15
    basalRate := 1
    targetGlucoseLow := 70
    targetGlucoseHigh := 180
    isPumpUser := false }

/-- Default value handed to `List.getD` when indexing reading lists. -/
def blankReading : GlucoseReading :=
  { patientId := ""
    timestamp := 0
    glucoseValue := 0
    isPredicted := false
    calculationTimestamp := 0 }

lemma clamp_bounds (lo hi x : ℝ) (h : lo ≤ hi) :
    lo ≤ max lo (min hi x) ∧ max lo (min hi x) ≤ hi :=
  ⟨le_max_left _ _, max_le h (min_le_left _ _)⟩

lemma simRun_length (p : CGMSimPatient) (ts : List CGMSimTreatment) :
    ∀ (g : ℝ) (times : List ℝ), (simRun p ts g times).length = times.length := by
  intro g times
  induction times generalizing g with
  | nil => simp [simRun]
  | cons t rest ih => simp [simRun, ih]

lemma simRun_timestamps (p : CGMSimPatient) (ts : List CGMSimTreatment) :
    ∀ (g : ℝ) (times : List ℝ), (simRun p ts g times).map SimPoint.timestamp = times := by
  intro g times
  induction times generalizing g with
  | nil => simp [simRun]
  | cons t rest ih => simp [simRun, ih]

lemma applyNoise_length (pid : String) (ct : ℝ) (na : List ℝ) :
    ∀ (i : ℕ) (pts : List SimPoint), (applyNoise pid ct na i pts).length = pts.length := by
  intro i pts
  induction pts generalizing i with
  | nil => simp [applyNoise]
  | cons pt rest ih => simp [applyNoise, ih]

lemma applyNoise_timestamps (pid : String) (ct : ℝ) (na : List ℝ) :
    ∀ (i : ℕ) (pts : List SimPoint),
      (applyNoise pid ct na i pts).map GlucoseReading.timestamp
        = pts.map SimPoint.timestamp := by
  intro i pts
  induction pts generalizing i with
  | nil => simp [applyNoise]
  | cons pt rest ih => simp [applyNoise, ih]

lemma applyNoise_mem_bounds (pid : String) (ct : ℝ) (na : List ℝ) :
    ∀ (i : ℕ) (pts : List SimPoint) (g : GlucoseReading),
      g ∈ applyNoise pid ct na i pts → 40 ≤ g.glucoseValue ∧ g.glucoseValue ≤ 400 := by
  intro i pts
  induction pts generalizing i with
  | nil => intro g hg; simp [applyNoise] at hg
  | cons pt rest ih =>
    intro g hg
    rcases (by simpa [applyNoise] using hg :
        g = _ ∨ g ∈ applyNoise pid ct na (i + 1) rest) with h | h
    · subst h
      exact clamp_bounds 40 400 _ (by norm_num)
    · exact ih (i + 1) g h

lemma intervalTimes_24_5_length (o : CGMSimOptions) (h24 : o.durationHours = 24)
    (h5 : o.intervalMinutes = 5) : (intervalTimes o).length = 289 := by
  simp [intervalTimes, h24, h5]

lemma calculateGlucoseCurve_length (draw : ℕ → ℝ) (now : ℝ) (patient : PatientProfile)
    (treatments : List Treatment) :
    (calculateGlucoseCurve draw now patient treatments).length = 289 := by
  rw [calculateGlucoseCurve]
  rw [applyNoise_length, simulateGlucoseProfile, simRun_length]
  exact intervalTimes_24_5_length _ rfl rfl

lemma fallback_length (draw : ℕ → ℝ) (now : ℝ) (patient : PatientProfile) :
    (generateFallbackGlucoseCurve draw now patient).length = 288 := by
  simp [generateFallbackGlucoseCurve]

lemma fallback_mem_bounds (draw : ℕ → ℝ) (now : ℝ) (patient : PatientProfile)
    (g : GlucoseReading) (hg : g ∈ generateFallbackGlucoseCurve draw now patient) :
    70 ≤ g.glucoseValue ∧ g.glucoseValue ≤ 200 := by
  rw [generateFallbackGlucoseCurve] at hg
  simp only [List.mem_map, List.mem_range] at hg
  obtain ⟨i, -, rfl⟩ := hg
  exact clamp_bounds 70 200 _ (by norm_num)

lemma generateWeeklyNoise_default_getD (draw : ℕ → ℝ) (pid ws : String) (i : ℕ)
    (h : i < 2016) :
    (generateWeeklyNoise draw pid ws 0.3 1 0.3).getD i 0 = draw i / 10 - 0.05 := by
  have hcond : ¬ ((0.3 : ℝ) = 0 ∨ (1 : ℝ) = 0 ∨ (0.3 : ℝ) = 0) := by norm_num
  simp only [generateWeeklyNoise, generatePerlinNoise, if_neg hcond, List.map_map]
  rw [List.getD_eq_getElem?_getD, List.getElem?_map, List.getElem?_range h]
  simp [hcond]

lemma getD_zero_mem {α : Type} (l : List α) (d : α) (h : 0 < l.length) :
    l.getD 0 d ∈ l := by
  rw [List.getD_eq_getElem?_getD, List.getElem?_eq_getElem h]
  exact List.getElem_mem h

/-- C1: the claim that `calculateGlucoseCurve` returns exactly 288 readings
fails on the code: the interval loop `for (i = 0; i <= (24*60)/5; i++)` has
an inclusive bound, so for every random stream, reference instant, profile
and treatment list the curve has 289 readings.  The rest of the claim
holds: the timestamps are exactly the strictly increasing 5-minute grid
`now + i * 300000` for `i = 0, …, 288`, starting at `now`. -/
theorem c1_curve_has_289_points (draw : ℕ → ℝ) (now : ℝ) (patient : PatientProfile)
    (treatments : List Treatment) :
    (calculateGlucoseCurve draw now patient treatments).length = 289 ∧
    (calculateGlucoseCurve draw now patient treatments).map GlucoseReading.timestamp
      = (List.range 289).map fun (i : ℕ) => now + (i : ℝ) * 5 * 60 * 1000 := by
  refine ⟨calculateGlucoseCurve_length draw now patient treatments, ?_⟩
  rw [calculateGlucoseCurve, applyNoise_timestamps, simulateGlucoseProfile,
    simRun_timestamps]
  simp only [intervalTimes]
  norm_num

/-- C2: the claim that `generateWeeklyNoise` is deterministic in the pair
(patient identifier, week start) fails on the code: the output does not
depend on `patientId` or `weekStart` at all (first conjunct), and two calls
that consume different values from the unseeded pseudo-random stream of the
perlin library return different arrays even with identical arguments and
the default noise parameters (second conjunct). -/
theorem c2_weeklyNoise_not_keyed :
    (∀ (draw : ℕ → ℝ) (pid₁ ws₁ pid₂ ws₂ : String) (a o p : ℝ),
      generateWeeklyNoise draw pid₁ ws₁ a o p = generateWeeklyNoise draw pid₂ ws₂ a o p) ∧
    generateWeeklyNoise (fun _ => 1) "patient-1" "2026-10-05" 0.3 1 0.3
      ≠ generateWeeklyNoise (fun _ => 0) "patient-1" "2026-10-05" 0.3 1 0.3 := by
  refine ⟨fun draw pid₁ ws₁ pid₂ ws₂ a o p => rfl, fun h => ?_⟩
  have h0 : (generateWeeklyNoise (fun _ => 1) "patient-1" "2026-10-05" 0.3 1 0.3).getD 0 0
      = (generateWeeklyNoise (fun _ => 0) "patient-1" "2026-10-05" 0.3 1 0.3).getD 0 0 := by
    rw [h]
  rw [generateWeeklyNoise_default_getD _ _ _ 0 (by norm_num),
    generateWeeklyNoise_default_getD _ _ _ 0 (by norm_num)] at h0
  norm_num at h0

/-- C3: every glucose value emitted by `calculateGlucoseCurve` — on the
normal path, which clamps each noisy value to `[40, 400]`, and on the
fallback path, which clamps to the narrower `[70, 200]` — lies in the
closed interval `[40, 400]`. -/
theorem c3_curve_bounds (draw : ℕ → ℝ) (now : ℝ) (patient : PatientProfile)
    (treatments : List Treatment) :
    (∀ g ∈ calculateGlucoseCurve draw now patient treatments,
      40 ≤ g.glucoseValue ∧ g.glucoseValue ≤ 400) ∧
    (∀ g ∈ generateFallbackGlucoseCurve draw now patient,
      40 ≤ g.glucoseValue ∧ g.glucoseValue ≤ 400) := by
  constructor
  · intro g hg
    rw [calculateGlucoseCurve] at hg
    exact applyNoise_mem_bounds _ _ _ _ _ g hg
  · intro g hg
    obtain ⟨h1, h2⟩ := fallback_mem_bounds draw now patient g hg
    exact ⟨by linarith, by linarith⟩

/-- Witness for C3: the first reading of the normal-path curve and of the
fallback curve, for the repository's default patient, reference instant 0,
no treatments and a concrete random stream, both lie in `[40, 400]`. -/
theorem c3_curve_bounds_witness :
    (40 ≤ ((calculateGlucoseCurve (fun _ => 2) 0 defaultPatient []).getD 0
        blankReading).glucoseValue ∧
      ((calculateGlucoseCurve (fun _ => 2) 0 defaultPatient []).getD 0
        blankReading).glucoseValue ≤ 400) ∧
    (40 ≤ ((generateFallbackGlucoseCurve (fun _ => 2) 0 defaultPatient).getD 0
        blankReading).glucoseValue ∧
      ((generateFallbackGlucoseCurve (fun _ => 2) 0 defaultPatient).getD 0
        blankReading).glucoseValue ≤ 400) := by
  constructor
  · exact (c3_curve_bounds (fun _ => 2) 0 defaultPatient []).1 _
      (getD_zero_mem _ _ (by rw [calculateGlucoseCurve_length]; norm_num))
  · exact (c3_curve_bounds (fun _ => 2) 0 defaultPatient []).2 _
      (getD_zero_mem _ _ (by rw [fallback_length]; norm_num))

lemma glucoseChangeAt_nil (p : CGMSimPatient) (t : ℝ) :
    glucoseChangeAt p [] t = 2 / 12 := by
  simp [glucoseChangeAt]

lemma simRun_nil_getD (p : CGMSimPatient) :
    ∀ (times : List ℝ) (g : ℝ) (i : ℕ), i < times.length → 40 ≤ g →
      g + (times.length : ℝ) / 6 ≤ 400 →
      ((simRun p [] g times).getD i ⟨0, 0⟩).glucoseValue = g + ((i : ℝ) + 1) / 6 := by
  intro times
  induction times with
  | nil => intro g i hi _ _; simp at hi
  | cons t rest ih =>
    intro g i hi h40 h400
    have hlen : ((t :: rest).length : ℝ) = (rest.length : ℝ) + 1 := by
      push_cast [List.length_cons]; ring
    have hrest : (0 : ℝ) ≤ (rest.length : ℝ) := Nat.cast_nonneg _
    have hstep : max 40 (min 400 (g + glucoseChangeAt p [] t)) = g + 1 / 6 := by
      rw [glucoseChangeAt_nil]
      have h1 : g + 2 / 12 ≤ 400 := by rw [hlen] at h400; linarith
      have h2 : (40 : ℝ) ≤ g + 2 / 12 := by linarith
      rw [min_eq_right h1, max_eq_right h2]; ring
    cases i with
    | zero =>
      simp only [simRun, hstep, List.getD_cons_zero]
      norm_num
    | succ j =>
      have hj : j < rest.length := by simpa using hi
      have h40' : (40 : ℝ) ≤ g + 1 / 6 := by linarith
      have h400' : g + 1 / 6 + (rest.length : ℝ) / 6 ≤ 400 := by
        rw [hlen] at h400; linarith
      simp only [simRun, hstep, List.getD_cons_succ]
      rw [ih (g + 1 / 6) j hj h40' h400']
      push_cast
      ring

/-- C4 counterexample: with the empty treatment list and the exact options
the façade passes, the last pre-noise value of the 24-hour simulation is
`120 + 289/6 ≈ 168.2 mg/dL`, outside the claimed 100–140 band. -/
theorem c4_counterexample :
    140 < ((simulateGlucoseProfile
      { patient := toCGMSimPatient defaultPatient
        treatments := ([] : List Treatment).map toCGMSimTreatment
        startTime := 0
        durationHours := 24
        intervalMinutes := 5
        baselineGlucose := 120 }).getD 288 ⟨0, 0⟩).glucoseValue := by
  rw [simulateGlucoseProfile]
  simp only [List.map_nil]
  have hlen : (intervalTimes
      { patient := toCGMSimPatient defaultPatient
        treatments := ([] : List CGMSimTreatment)
        startTime := 0
        durationHours := 24
        intervalMinutes := 5
        baselineGlucose := 120 }).length = 289 :=
    intervalTimes_24_5_length _ rfl rfl
  rw [simRun_nil_getD _ _ _ 288 (by rw [hlen]; norm_num) (by norm_num)
    (by rw [hlen]; norm_num)]
  norm_num

/-- C4 as amended: for every profile and start instant, the pre-noise
series computed with an empty treatment list is the clamped-free linear
ramp `120 + (i + 1)/6` (the 2 mg/dL per hour endogenous drift accumulating
from the 120 baseline), so the values lie in `(120, 169]`, not in the
claimed 100–140 band. -/
theorem c4_noTreatment_linear_ramp (patient : PatientProfile) (startTime : ℝ)
    (i : ℕ) (hi : i < 289) :
    ((simulateGlucoseProfile
      { patient := toCGMSimPatient patient
        treatments := []
        startTime := startTime
        durationHours := 24
        intervalMinutes := 5
        baselineGlucose := 120 }).getD i ⟨0, 0⟩).glucoseValue = 120 + ((i : ℝ) + 1) / 6 ∧
    120 < 120 + ((i : ℝ) + 1) / 6 ∧ 120 + ((i : ℝ) + 1) / 6 ≤ 169 := by
  have hcast : (i : ℝ) ≤ 288 := by exact_mod_cast Nat.lt_succ_iff.mp hi
  have hpos : (0 : ℝ) ≤ (i : ℝ) := Nat.cast_nonneg _
  refine ⟨?_, by linarith, by linarith⟩
  rw [simulateGlucoseProfile]
  have hlen : (intervalTimes
      { patient := toCGMSimPatient patient
        treatments := ([] : List CGMSimTreatment)
        startTime := startTime
        durationHours := 24
        intervalMinutes := 5
        baselineGlucose := 120 }).length = 289 :=
    intervalTimes_24_5_length _ rfl rfl
  rw [simRun_nil_getD _ _ _ i (by rw [hlen]; exact hi) (by norm_num)
    (by rw [hlen]; norm_num)]

/-- Witness for the amended C4 at the default patient, start instant 0 and
grid index 0: the first pre-noise value is `120 + 1/6`. -/
theorem c4_noTreatment_linear_ramp_witness :
    ((simulateGlucoseProfile
      { patient := toCGMSimPatient defaultPatient
        treatments := []
        startTime := 0
        durationHours := 24
        intervalMinutes := 5
        baselineGlucose := 120 }).getD 0 ⟨0, 0⟩).glucoseValue = 120 + ((0 : ℝ) + 1) / 6 ∧
    120 < 120 + ((0 : ℝ) + 1) / 6 ∧ 120 + ((0 : ℝ) + 1) / 6 ≤ 169 := by
  have h := c4_noTreatment_linear_ramp defaultPatient 0 0 (by norm_num)
  simpa using h

/-- The rapid-insulin effect magnitude is strictly increasing on the whole
`[0, 300]`-minute window: with `t` in hours the argument `0.0173 · t` stays
below `ln 2` throughout (its maximum `0.0865` is far from `0.693`), so
`u (1 - u)` with `u = exp (-0.0173 t)` never reaches its turning point
`u = 1/2` inside the window.  The effect therefore has no interior peak —
in particular none near 55 minutes. -/
lemma rapidInsulinEffect_strictMono (ins : ℝ) (p : CGMSimPatient)
    (hins : 0 < ins) (hisf : 0 < p.insulinSensitivityFactor)
    (t₁ t₂ : ℝ) (h0 : 0 ≤ t₁) (h12 : t₁ < t₂) (h300 : t₂ ≤ 300) :
    calculateInsulinEffect ins t₁ p .rapid < calculateInsulinEffect ins t₂ p .rapid := by
  have hn1 : ¬ t₁ > 300 := by linarith
  have hn2 : ¬ t₂ > 300 := by linarith
  simp only [calculateInsulinEffect, if_neg hn1, if_neg hn2]
  set a := Real.exp (-0.0173 * (t₁ / 60)) with ha
  set b := Real.exp (-0.0173 * (t₂ / 60)) with hb
  have hba : b < a := by
    rw [ha, hb]
    exact Real.exp_lt_exp.mpr (by linarith)
  have ha1 : a ≤ 1 := by
    rw [ha]
    exact Real.exp_le_one_iff.mpr (by linarith)
  have hb2 : 1 / 2 < b := by
    have hle := Real.add_one_le_exp (-0.0173 * (t₂ / 60))
    rw [← hb] at hle
    linarith
  have hact : a * (1 - a) < b * (1 - b) := by
    have key : b * (1 - b) - a * (1 - a) = (a - b) * (a + b - 1) := by ring
    nlinarith [mul_pos (by linarith : (0 : ℝ) < a - b) (by linarith : (0 : ℝ) < a + b - 1)]
  have hc : 0 < ins * p.insulinSensitivityFactor * 0.05 := by positivity
  nlinarith [mul_lt_mul_of_pos_left hact hc]

/-- C5: the claim that the rapid-insulin effect peaks near 55 minutes and
decreases in magnitude thereafter fails on the code (which contradicts its
own comment "peak around 55 minutes"): because `exp (-0.0173 * t)` takes
`t` in *hours*, the effect magnitude is strictly increasing over the whole
0–300 minute window, so at 290 minutes it strictly exceeds the value at
55 minutes.  The endpoints of the claim do hold: the effect is 0 at
elapsed 0 and 0 beyond 300 minutes. -/
theorem c5_rapid_insulin_peak_wrong :
    calculateInsulinEffect 4 0 (toCGMSimPatient defaultPatient) .rapid = 0 ∧
    calculateInsulinEffect 4 55 (toCGMSimPatient defaultPatient) .rapid
      < calculateInsulinEffect 4 290 (toCGMSimPatient defaultPatient) .rapid ∧
    calculateInsulinEffect 4 301 (toCGMSimPatient defaultPatient) .rapid = 0 := by
  refine ⟨?_, ?_, ?_⟩
  · simp only [calculateInsulinEffect]
    norm_num
  · exact rapidInsulinEffect_strictMono 4 (toCGMSimPatient defaultPatient)
      (by norm_num) (by norm_num [toCGMSimPatient, defaultPatient])
      55 290 (by norm_num) (by norm_num) (by norm_num)
  · simp only [calculateInsulinEffect]
    rw [if_pos (by norm_num)]

/-- The glucose delta a meal logged at instant 0 contributes to the grid
point `t` minutes later, as `simulateGlucoseProfile` applies it
(lines 72–84: the `timeSinceTreatment >= 0` guard, the carbohydrate
truthiness guard and the 240-minute window around `calculateCarbEffect`). -/
def mealContribution (patient : CGMSimPatient) (carbs t : ℝ) : ℝ :=
  treatmentChange patient (t * (1000 * 60)) ⟨0, .meal, carbs, 0, none, 0⟩

lemma mealContribution_eq (patient : CGMSimPatient) (carbs t : ℝ) :
    mealContribution patient carbs t =
      if 0 ≤ t then
        if carbs ≠ 0 ∧ t ≤ 240 then calculateCarbEffect carbs t patient else 0
      else 0 := by
  have h60 : (t * (1000 * 60) - 0) / (1000 * 60) = t := by
    field_simp
  simp only [mealContribution, treatmentChange, h60]

lemma mealContribution_rise (patient : CGMSimPatient) (carbs : ℝ) (hc : carbs ≠ 0)
    (t : ℝ) (h0 : 0 ≤ t) (h60 : t ≤ 60) :
    mealContribution patient carbs t
      = carbs / patient.carbRatio * patient.insulinSensitivityFactor * (t / 60) * 0.05 := by
  rw [mealContribution_eq, if_pos h0, if_pos (⟨hc, by linarith⟩ : carbs ≠ 0 ∧ t ≤ 240)]
  simp only [calculateCarbEffect]
  rw [if_neg (by linarith : ¬ t > 240), if_pos h60]

lemma mealContribution_fall (patient : CGMSimPatient) (carbs : ℝ) (hc : carbs ≠ 0)
    (t : ℝ) (h60 : 60 < t) (h240 : t ≤ 240) :
    mealContribution patient carbs t
      = carbs / patient.carbRatio * patient.insulinSensitivityFactor
        * ((240 - t) / (240 - 60)) * 0.05 := by
  rw [mealContribution_eq, if_pos (by linarith : (0:ℝ) ≤ t),
    if_pos (⟨hc, h240⟩ : carbs ≠ 0 ∧ t ≤ 240)]
  simp only [calculateCarbEffect]
  rw [if_neg (by linarith : ¬ t > 240), if_neg (by linarith : ¬ t ≤ 60)]

/-- C6: the carbohydrate contribution of a meal is 0 for negative elapsed
time, strictly increasing on `[0, 60]` minutes, strictly decreasing on
`[60, 240]` (hence on the claim's `[60, 240)`), exactly 0 beyond 240
minutes, and peaks at 60 minutes with magnitude
`carbs / carbRatio * ISF * 0.05` (the fixed per-step constant). -/
theorem c6_carb_effect_shape (patient : CGMSimPatient) (carbs : ℝ)
    (hc : 0 < carbs) (hr : 0 < patient.carbRatio)
    (hisf : 0 < patient.insulinSensitivityFactor) :
    (∀ t : ℝ, t < 0 → mealContribution patient carbs t = 0) ∧
    StrictMonoOn (mealContribution patient carbs) (Set.Icc 0 60) ∧
    StrictAntiOn (mealContribution patient carbs) (Set.Icc 60 240) ∧
    (∀ t : ℝ, 240 < t → mealContribution patient carbs t = 0) ∧
    mealContribution patient carbs 60
      = carbs / patient.carbRatio * patient.insulinSensitivityFactor * 0.05 := by
  have hcne : carbs ≠ 0 := ne_of_gt hc
  have hK : 0 < carbs / patient.carbRatio * patient.insulinSensitivityFactor := by
    positivity
  refine ⟨?_, ?_, ?_, ?_, ?_⟩
  · intro t ht
    rw [mealContribution_eq, if_neg (by linarith)]
  · intro t₁ h₁ t₂ h₂ h12
    rw [mealContribution_rise patient carbs hcne t₁ h₁.1 h₁.2,
      mealContribution_rise patient carbs hcne t₂ h₂.1 h₂.2]
    have := mul_lt_mul_of_pos_left (show t₁ / 60 < t₂ / 60 by linarith) hK
    linarith
  · intro t₁ h₁ t₂ h₂ h12
    by_cases ht₁ : t₁ ≤ 60
    · have he : t₁ = 60 := le_antisymm ht₁ h₁.1
      have h2' : (60 : ℝ) < t₂ := by rw [← he]; exact h12
      rw [he, mealContribution_rise patient carbs hcne 60 (by norm_num) le_rfl,
        mealContribution_fall patient carbs hcne t₂ h2' h₂.2]
      have := mul_lt_mul_of_pos_left
        (show (240 - t₂) / (240 - 60) < 60 / 60 by rw [div_lt_div_iff₀] <;> linarith) hK
      linarith
    · rw [mealContribution_fall patient carbs hcne t₁ (by linarith) h₁.2,
        mealContribution_fall patient carbs hcne t₂ (by linarith) h₂.2]
      have := mul_lt_mul_of_pos_left
        (show (240 - t₂) / (240 - 60) < (240 - t₁) / (240 - 60) by
          rw [div_lt_div_iff₀] <;> linarith) hK
      linarith
  · intro t ht
    rw [mealContribution_eq, if_pos (by linarith : (0:ℝ) ≤ t),
      if_neg (by intro h; linarith [h.2])]
  · rw [mealContribution_rise patient carbs hcne 60 (by norm_num) le_rfl]
    norm_num

/-- Witness for C6 at the default patient (carb ratio 15, ISF 50) and a
60 g meal: zero at elapsed −10, rising between 30 and 45, falling between
100 and 200, zero at 250, and peak value 60/15 · 50 · 0.05 = 10 at 60. -/
theorem c6_carb_effect_shape_witness :
    mealContribution (toCGMSimPatient defaultPatient) 60 (-10) = 0 ∧
    mealContribution (toCGMSimPatient defaultPatient) 60 30
      < mealContribution (toCGMSimPatient defaultPatient) 60 45 ∧
    mealContribution (toCGMSimPatient defaultPatient) 60 200
      < mealContribution (toCGMSimPatient defaultPatient) 60 100 ∧
    mealContribution (toCGMSimPatient defaultPatient) 60 250 = 0 ∧
    mealContribution (toCGMSimPatient defaultPatient) 60 60 = 10 := by
  have h := c6_carb_effect_shape (toCGMSimPatient defaultPatient) 60 (by norm_num)
    (by norm_num [toCGMSimPatient, defaultPatient])
    (by norm_num [toCGMSimPatient, defaultPatient])
  refine ⟨h.1 _ (by norm_num),
    h.2.1 (Set.mem_Icc.mpr ⟨by norm_num, by norm_num⟩)
      (Set.mem_Icc.mpr ⟨by norm_num, by norm_num⟩) (by norm_num),
    h.2.2.1 (Set.mem_Icc.mpr ⟨by norm_num, by norm_num⟩)
      (Set.mem_Icc.mpr ⟨by norm_num, by norm_num⟩) (by norm_num),
    h.2.2.2.1 _ (by norm_num), ?_⟩
  have h5 := h.2.2.2.2
  norm_num [toCGMSimPatient, defaultPatient] at h5
  exact h5

/-- C7 counterexample: the post-exercise decay does not have a half-life of
approximately 120 minutes.  For 30 minutes of moderate exercise, the effect
120 minutes after the value at elapsed 60 is strictly below 2/5 of it
(the actual factor is `exp (-1) ≈ 0.368`), while a ≈120-minute half-life
would leave ≈1/2; the reference value is itself positive, so the drop is a
genuine overshoot of the claimed half-life. -/
theorem c7_exercise_halflife_counterexample :
    calculateExerciseEffect .moderate 30 180
      < 2 / 5 * calculateExerciseEffect .moderate 30 60 ∧
    0 < calculateExerciseEffect .moderate 30 60 := by
  have h1 : (2.5 : ℝ) < Real.exp 1 := lt_trans (by norm_num) Real.exp_one_gt_d9
  have hmul : Real.exp (-1 : ℝ) * Real.exp 1 = 1 := by
    rw [← Real.exp_add]; norm_num
  have hneg : Real.exp (-1 : ℝ) < 0.4 := by
    nlinarith [Real.exp_pos (-1 : ℝ)]
  have e60 : calculateExerciseEffect .moderate 30 60
      = 1.0 * 0.2 * Real.exp (-(1 / 4 : ℝ)) := by
    rw [calculateExerciseEffect, if_neg (by norm_num), if_neg (by norm_num)]
    norm_num [intensityOf]
  have e180 : calculateExerciseEffect .moderate 30 180
      = 1.0 * 0.2 * (Real.exp (-(1 / 4 : ℝ)) * Real.exp (-1 : ℝ)) := by
    rw [calculateExerciseEffect, if_neg (by norm_num), if_neg (by norm_num),
      ← Real.exp_add]
    norm_num [intensityOf]
  constructor
  · rw [e60, e180]
    nlinarith [Real.exp_pos (-(1 / 4) : ℝ)]
  · rw [e60]
    positivity

/-- C7 as amended: during the activity the effect is the fixed
`intensity * 0.5` with multipliers light 0.5 / moderate 1 / intense 2;
after the activity it is `intensity * 0.2 * exp (-(timeAfter / 120))`,
an exponential decay with *time constant* 120 minutes — every further
120 minutes multiply it by `exp (-1)`, i.e. the half-life is
`120 · ln 2 ≈ 83` minutes, not ≈120 — and it is exactly 0 once elapsed
time exceeds `duration + 180` minutes. -/
theorem c7_exercise_effect_shape (ty : ExerciseType) (d t : ℝ) :
    (0 ≤ t → t ≤ d → calculateExerciseEffect ty d t = intensityOf ty * 0.5) ∧
    (d < t → t ≤ d + 180 →
      calculateExerciseEffect ty d t
        = intensityOf ty * 0.2 * Real.exp (-((t - d) / 120))) ∧
    (d < t → t + 120 ≤ d + 180 →
      calculateExerciseEffect ty d (t + 120)
        = Real.exp (-1 : ℝ) * calculateExerciseEffect ty d t) ∧
    (d + 180 < t → calculateExerciseEffect ty d t = 0) ∧
    intensityOf .light = 0.5 ∧ intensityOf .moderate = 1 ∧ intensityOf .intense = 2 := by
  refine ⟨?_, ?_, ?_, ?_, rfl, by norm_num [intensityOf], by norm_num [intensityOf]⟩
  · intro h0 hdt
    rw [calculateExerciseEffect, if_neg (by linarith), if_pos hdt]
  · intro h1 h2
    rw [calculateExerciseEffect, if_neg (by linarith), if_neg (by linarith)]
  · intro h1 h2
    rw [calculateExerciseEffect, if_neg (by linarith), if_neg (by linarith),
      calculateExerciseEffect, if_neg (by linarith), if_neg (by linarith)]
    have harg : (-((t + 120 - d) / 120)) = (-((t - d) / 120)) + (-1 : ℝ) := by ring
    rw [harg, Real.exp_add]
    ring
  · intro h
    rw [calculateExerciseEffect, if_pos (by linarith)]

/-- Witness for the amended C7: moderate exercise of 30 minutes — fixed
0.5 during (elapsed 20), the exponential form at elapsed 150, the
`exp (-1)` drop from elapsed 60 to 180, and 0 at elapsed 211. -/
theorem c7_exercise_effect_shape_witness :
    calculateExerciseEffect .moderate 30 20 = intensityOf .moderate * 0.5 ∧
    calculateExerciseEffect .moderate 30 150
      = intensityOf .moderate * 0.2 * Real.exp (-((150 - 30 : ℝ) / 120)) ∧
    calculateExerciseEffect .moderate 30 (60 + 120)
      = Real.exp (-1 : ℝ) * calculateExerciseEffect .moderate 30 60 ∧
    calculateExerciseEffect .moderate 30 211 = 0 :=
  ⟨(c7_exercise_effect_shape .moderate 30 20).1 (by norm_num) (by norm_num),
    (c7_exercise_effect_shape .moderate 30 150).2.1 (by norm_num) (by norm_num),
    (c7_exercise_effect_shape .moderate 30 60).2.2.1 (by norm_num) (by norm_num),
    (c7_exercise_effect_shape .moderate 30 211).2.2.2.1 (by norm_num)⟩


/-- C8: when the internal curve calculation raises, the façade's catch
branch still returns a complete series — the fallback curve — with exactly
288 readings whose glucose values all lie in `[70, 200]`; in the embedding
the function is total, so it never propagates the error to its caller. -/
theorem c8_fallback_on_error (draw : ℕ → ℝ) (now : ℝ) (patient : PatientProfile)
    (treatments : List Treatment) :
    calculateGlucoseCurveCaught draw now patient treatments true
      = generateFallbackGlucoseCurve draw now patient ∧
    (calculateGlucoseCurveCaught draw now patient treatments true).length = 288 ∧
    ∀ g ∈ calculateGlucoseCurveCaught draw now patient treatments true,
      70 ≤ g.glucoseValue ∧ g.glucoseValue ≤ 200 := by
  have he : calculateGlucoseCurveCaught draw now patient treatments true
      = generateFallbackGlucoseCurve draw now patient := by
    simp [calculateGlucoseCurveCaught]
  refine ⟨he, ?_, ?_⟩
  · rw [he, fallback_length]
  · intro g hg
    rw [he] at hg
    exact fallback_mem_bounds draw now patient g hg

/-- Witness for C8: the first reading of the error-path curve at the
default patient, instant 0 and a concrete random stream lies in `[70, 200]`. -/
theorem c8_fallback_on_error_witness :
    70 ≤ ((calculateGlucoseCurveCaught (fun _ => 2) 0 defaultPatient [] true).getD 0
      blankReading).glucoseValue ∧
    ((calculateGlucoseCurveCaught (fun _ => 2) 0 defaultPatient [] true).getD 0
      blankReading).glucoseValue ≤ 200 := by
  refine (c8_fallback_on_error (fun _ => 2) 0 defaultPatient []).2.2 _
    (getD_zero_mem _ _ ?_)
  rw [(c8_fallback_on_error (fun _ => 2) 0 defaultPatient []).2.1]
  norm_num

/-- The reading-at-`now` series member used to refute C9: timestamp exactly
`now = 0` but glucose value 0. -/
def zeroReading : GlucoseReading :=
  { patientId := "patient-1"
    timestamp := 0
    glucoseValue := 0
    isPredicted := true
    calculationTimestamp := 0 }

/-- The nonzero reading used in the C9 witness. -/
def reading100 : GlucoseReading :=
  { patientId := "patient-1"
    timestamp := 0
    glucoseValue := 100
    isPredicted := true
    calculationTimestamp := 0 }

/-- C9 counterexample: on the series whose only reading sits exactly at
`now` with glucose value 0, a reading within 5 minutes of `now` exists, yet
`getCurrentGlucoseValue` returns the fixed default 120 — not that
reading's value — because the JS `?.glucoseValue || 120` treats the falsy
value 0 as absent. -/
theorem c9_zero_value_counterexample :
    |zeroReading.timestamp - 0| < 5 * 60 * 1000 ∧
    getCurrentGlucoseValue 0 [zeroReading] = 120 ∧
    zeroReading.glucoseValue ≠ 120 := by
  refine ⟨by norm_num [zeroReading], ?_, by norm_num [zeroReading]⟩
  norm_num [getCurrentGlucoseValue, findNearbyReading, zeroReading]

lemma findNearbyReading_sound (now : ℝ) :
    ∀ (l : List GlucoseReading) (r : GlucoseReading),
      findNearbyReading now l = some r → |r.timestamp - now| < 5 * 60 * 1000 := by
  intro l
  induction l with
  | nil => intro r h; simp [findNearbyReading] at h
  | cons a rest ih =>
    intro r h
    rw [findNearbyReading] at h
    split_ifs at h with hcond
    · cases h; exact hcond
    · exact ih r h

lemma findNearbyReading_complete (now : ℝ) :
    ∀ (l : List GlucoseReading), findNearbyReading now l = none →
      ∀ r ∈ l, ¬ |r.timestamp - now| < 5 * 60 * 1000 := by
  intro l
  induction l with
  | nil => intro _ r hr; simp at hr
  | cons a rest ih =>
    intro h r hr
    rw [findNearbyReading] at h
    split_ifs at h with hcond
    rcases List.mem_cons.mp hr with rfl | hmem
    · exact hcond
    · exact ih h r hmem

/-- C9 as amended: `getCurrentGlucoseValue` returns 120 on the empty
series; it returns 120 whenever no reading lies strictly within 5 minutes
of `now` (and `findNearbyReading` returning `none` means exactly that); and
when the scan finds a first qualifying reading, that reading really is
within 5 minutes of `now` and its value is returned — provided that value
is nonzero (a qualifying reading with the falsy value 0 also yields the
default 120, see the counterexample). -/
theorem c9_current_value_spec (now : ℝ) (readings : List GlucoseReading) :
    getCurrentGlucoseValue now [] = 120 ∧
    (findNearbyReading now readings = none → getCurrentGlucoseValue now readings = 120) ∧
    (∀ r, findNearbyReading now readings = some r → r.glucoseValue ≠ 0 →
      getCurrentGlucoseValue now readings = r.glucoseValue) ∧
    (∀ r, findNearbyReading now readings = some r →
      |r.timestamp - now| < 5 * 60 * 1000) ∧
    (findNearbyReading now readings = none →
      ∀ r ∈ readings, ¬ |r.timestamp - now| < 5 * 60 * 1000) := by
  refine ⟨rfl, ?_, ?_, fun r hr => findNearbyReading_sound now readings r hr,
    fun h => findNearbyReading_complete now readings h⟩
  · intro h
    simp [getCurrentGlucoseValue, h]
  · intro r hr hne
    simp [getCurrentGlucoseValue, hr, hne]

/-- Witness for the amended C9: empty series gives 120, and a singleton
series with a nonzero reading at `now` gives that reading's value. -/
theorem c9_current_value_spec_witness :
    getCurrentGlucoseValue 0 [] = 120 ∧
    getCurrentGlucoseValue 0 [reading100] = 100 := by
  have hfind : findNearbyReading 0 [reading100] = some reading100 := by
    rw [findNearbyReading, if_pos (by norm_num [reading100])]
  refine ⟨(c9_current_value_spec 0 []).1, ?_⟩
  have h := (c9_current_value_spec 0 [reading100]).2.2.1 reading100 hfind
    (by norm_num [reading100])
  simpa [reading100] using h

lemma treatmentChange_correction_eq_rapid (p : CGMSimPatient) (time : ℝ)
    (tr : Treatment) :
    treatmentChange p time (toCGMSimTreatment { tr with type := .correction })
      = treatmentChange p time (toCGMSimTreatment { tr with type := .rapid_insulin }) := rfl

lemma simRun_congr (p : CGMSimPatient) (ts₁ ts₂ : List CGMSimTreatment)
    (h : ∀ time, glucoseChangeAt p ts₁ time = glucoseChangeAt p ts₂ time) :
    ∀ (g : ℝ) (times : List ℝ), simRun p ts₁ g times = simRun p ts₂ g times := by
  intro g times
  induction times generalizing g with
  | nil => rfl
  | cons t rest ih =>
    simp only [simRun]
    rw [h t]
    exact congrArg _ (ih _)

/-- C10: a `'correction'` treatment is processed by the very same
rapid-insulin branch (the fall-through `case 'rapid_insulin': case
'correction':`) with the same 300-minute window, so swapping the type tag
of any one treatment between `correction` and `rapid_insulin` leaves the
entire output series of `calculateGlucoseCurve` unchanged. -/
theorem c10_correction_acts_as_rapid_insulin (draw : ℕ → ℝ) (now : ℝ)
    (patient : PatientProfile) (pre post : List Treatment) (tr : Treatment) :
    calculateGlucoseCurve draw now patient
        (pre ++ { tr with type := .correction } :: post)
      = calculateGlucoseCurve draw now patient
        (pre ++ { tr with type := .rapid_insulin } :: post) := by
  have hmap : ∀ time, glucoseChangeAt (toCGMSimPatient patient)
      ((pre ++ { tr with type := TreatmentType.correction } :: post).map toCGMSimTreatment)
        time
    = glucoseChangeAt (toCGMSimPatient patient)
      ((pre ++ { tr with type := TreatmentType.rapid_insulin } :: post).map toCGMSimTreatment)
        time := by
    intro time
    simp [glucoseChangeAt, List.map_append, List.map_cons, List.sum_append,
      List.sum_cons, treatmentChange_correction_eq_rapid]
  simp only [calculateGlucoseCurve, simulateGlucoseProfile, intervalTimes]
  congr 1
  exact simRun_congr _ _ _ hmap _ _

end
